import Mathlib

/-!
# Verification of the commercial quantum licensing gateway

A shallow embedding of `src/commercial_quantum_system.py`
(`QuantumCommercialSystem` and its helpers): the tier catalog, license
issuance, credential derivation, revenue accounting, and the request
dispatcher.  Methods that the source calls but never defines
(`_verify_api_key`, `_check_rate_limits`, `_process_request`) are modelled
from the specification, as marked in their doc comments.

Conventions:
* Python `datetime` timestamps are integers (seconds); `timedelta(days=30)`
  is `30 * 86400` seconds.
* Python `float` money and access levels are rationals (`ℚ`); the literals
  in the source are exact decimals.
* Python dicts are association lists (`List (String × _)`) with
  last-write-wins insertion at the front.
* Python set literals of strings are `List String`; membership and subset
  are list membership and list subset.
* A raised exception is `Except.error` carrying a `PyError`; a function
  that mutates `self` threads an explicit state value and returns it
  unchanged on the error path.
-/

/-- Python exception kinds that the embedded code can surface.
`nameError` carries the unresolvable identifier (Python `NameError`);
`valueError` carries the message of `raise ValueError(...)`;
the remaining constructors are the error kinds named by the spec for the
components modelled from it. -/
inductive PyError where
  | nameError (ident : String)
  | keyError
  | valueError (msg : String)
  | invalidCredentialError
  | expiredLicenseError
  | rateLimitExceededError
  | featureNotEntitledError
  | invalidRequestError
  deriving DecidableEq, Repr

/-- `class LicenseTier(Enum)` (src lines 16-20). -/
inductive LicenseTier where
  | BASIC
  | PROFESSIONAL
  | ENTERPRISE
  | UNLIMITED
  deriving DecidableEq, Repr, Fintype

/-- The `.value` string of each `LicenseTier` member (src lines 17-20). -/
def LicenseTier.value : LicenseTier → String
  | .BASIC => "QUANTUM_BASIC"
  | .PROFESSIONAL => "QUANTUM_PRO"
  | .ENTERPRISE => "QUANTUM_ENTERPRISE"
  | .UNLIMITED => "QUANTUM_UNLIMITED"

/-- The rank of a tier in the catalog order BASIC < PROFESSIONAL <
ENTERPRISE < UNLIMITED. -/
def LicenseTier.rank : LicenseTier → ℕ
  | .BASIC => 0
  | .PROFESSIONAL => 1
  | .ENTERPRISE => 2
  | .UNLIMITED => 3

/-- One entry of the `self.features` catalog dict built by
`_initialize_commercial_system` (src lines 44-102).  The source stores
`api_calls_per_second` as a number or `float('inf')`; the unbounded
ceiling is `none`. -/
structure TierInfo where
  qubits : ℕ
  api_calls_per_second : Option ℕ
  features : List String
  price : ℚ
  deriving DecidableEq, Repr

/-- `self.features` from `_initialize_commercial_system` (src lines 44-102),
keyed by tier.  Every member of `LicenseTier` has an entry. -/
def catalogFeatures : LicenseTier → TierInfo
  | .BASIC =>
      { qubits := 128
        api_calls_per_second := some 10
        features := ["quantum_processing", "basic_optimization",
                     "pattern_recognition"]
        price := 10000 }
  | .PROFESSIONAL =>
      { qubits := 512
        api_calls_per_second := some 50
        features := ["quantum_processing", "advanced_optimization",
                     "pattern_recognition", "quantum_ml",
                     "parallel_processing"]
        price := 50000 }
  | .ENTERPRISE =>
      { qubits := 1024
        api_calls_per_second := some 250
        features := ["quantum_processing", "advanced_optimization",
                     "pattern_recognition", "quantum_ml",
                     "parallel_processing", "custom_quantum_circuits",
                     "priority_support", "dedicated_infrastructure"]
        price := 250000 }
  | .UNLIMITED =>
      { qubits := 2048
        api_calls_per_second := none
        features := ["quantum_processing", "advanced_optimization",
                     "pattern_recognition", "quantum_ml",
                     "parallel_processing", "custom_quantum_circuits",
                     "priority_support", "dedicated_infrastructure",
                     "unlimited_scaling", "direct_quantum_access",
                     "custom_development"]
        price := 1000000 }

/-- `_calculate_access_level` (src lines 140-148): the `levels` dict has an
entry for every tier, so the lookup is total. -/
def calculate_access_level : LicenseTier → ℚ
  | .BASIC => 25 / 100
  | .PROFESSIONAL => 50 / 100
  | .ENTERPRISE => 75 / 100
  | .UNLIMITED => 95 / 100

/-- `@dataclass CommercialLicense` (src lines 22-34). -/
structure CommercialLicense where
  tier : LicenseTier
  company_name : String
  license_key : String
  access_level : ℚ
  features : List String
  api_key : String
  quantum_allocation : ℕ
  monthly_fee : ℚ
  start_date : ℤ
  expiration_date : ℤ
  deriving DecidableEq, Repr

/-- The mutable state of a `QuantumCommercialSystem` instance
(src lines 39-42): `self.license_db` keyed by license key, and
`self.revenue`. -/
structure SystemState where
  license_db : List (String × CommercialLicense)
  revenue : ℚ
  deriving DecidableEq, Repr

/-- `QuantumCommercialSystem.__init__` (src lines 39-42): empty registry,
zero revenue. -/
def initState : SystemState := { license_db := [], revenue := 0 }

/-- The lowercase hex digit of a value below 16 (as produced by Python's
`hexdigest`). -/
def hexChar (n : ℕ) : Char := Nat.digitChar n

/-- A character is a lowercase hexadecimal digit: a decimal digit or one
of the letters `a` through `f`. -/
def isLowerHexDigit (c : Char) : Prop :=
  ('0' ≤ c ∧ c ≤ '9') ∨ ('a' ≤ c ∧ c ≤ 'f')

instance (c : Char) : Decidable (isLowerHexDigit c) := by
  unfold isLowerHexDigit
  infer_instance

/-- Every character of a character list is a lowercase hex digit. -/
def lowerHexList (l : List Char) : Prop := ∀ c ∈ l, isLowerHexDigit c

/-- The two lowercase hex digits of one byte, most significant first. -/
def byteHex (b : ℕ) : List Char := [hexChar (b / 16), hexChar (b % 16)]

/-- Python's `hexdigest()` on a digest given as a list of byte values:
each byte becomes two lowercase hex characters. -/
def hexdigest (digest : List ℕ) : List Char := (digest.map byteHex).flatten

/-- `_generate_license_key` (src lines 131-134): hash the string
`f"{company_name}-{tier.value}-{uuid.uuid4().hex}"` and keep the first 32
hex characters after the fixed prefix.  `uuid.uuid4().hex` is the `nonce`
parameter; `hashlib.sha256(...).hexdigest()` is the `sha256` byte-digest
parameter rendered through `hexdigest`. -/
def generate_license_key (sha256 : String → List ℕ)
    (company_name : String) (tier : LicenseTier) (nonce : String) : String :=
  let base := company_name ++ "-" ++ tier.value ++ "-" ++ nonce
  "SAAAM-" ++ String.mk ((hexdigest (sha256 base)).take 32)

/-- `_generate_api_key` (src lines 136-138): hash the license key alone and
keep the first 48 hex characters after the fixed prefix. -/
def generate_api_key (sha256 : String → List ℕ) (license_key : String) :
    String :=
  "saam-api-" ++ String.mk ((hexdigest (sha256 license_key)).take 48)

/-- Every name bound at module level in `commercial_quantum_system.py`:
the imports of lines 1-13 and the module-level definitions.  `timedelta`
is not among them — line 10 imports only `datetime` from the `datetime`
module. -/
def moduleGlobals : List String :=
  ["QuantumCircuit", "QuantumRegister", "ClassicalRegister",
   "QiskitRuntimeService", "np", "Dict", "List", "Optional", "Set",
   "asyncio", "dataclass", "field", "Enum", "auto", "logging", "sys",
   "datetime", "hashlib", "uuid", "time",
   "LicenseTier", "CommercialLicense", "QuantumCommercialSystem",
   "QuotingSystem", "main"]

/-- Resolution of a bare identifier against the module's global namespace:
Python raises `NameError` when the name is unbound. -/
def lookupGlobal (ident : String) : Except PyError Unit :=
  if ident ∈ moduleGlobals then Except.ok () else
    Except.error (PyError.nameError ident)

/-- Python dict assignment `db[k] = v`: last write wins. -/
def dictInsert (db : List (String × CommercialLicense)) (k : String)
    (v : CommercialLicense) : List (String × CommercialLicense) :=
  (k, v) :: db.filter (fun kv => kv.1 != k)

/-- `generate_license` (src lines 104-129).  The license key and API key
are derived first (lines 107, 110); the `CommercialLicense(...)` argument
list (lines 113-124) is then evaluated left to right: the catalog and
access-level lookups are total, `start_date` reads the clock (`now1`,
line 122), and `expiration_date` (line 123) reads the clock again (`now2`)
and then resolves the bare name `timedelta`, which no import binds, so the
call raises `NameError` before the license is constructed or stored.  On
that error path `self.license_db` and `self.revenue` are returned
unchanged. -/
def generate_license (sha256 : String → List ℕ) (st : SystemState)
    (company_name : String) (tier : LicenseTier) (nonce : String)
    (now1 now2 : ℤ) : Except PyError CommercialLicense × SystemState :=
  let license_key := generate_license_key sha256 company_name tier nonce
  let api_key := generate_api_key sha256 license_key
  let access_level := calculate_access_level tier
  let feats := (catalogFeatures tier).features
  let start_date := now1
  let _clockRead := now2
  match lookupGlobal "timedelta" with
  | Except.error e => (Except.error e, st)
  | Except.ok _ =>
      let expiration_date := now2 + 30 * 86400
      let lic : CommercialLicense :=
        { tier := tier
          company_name := company_name
          license_key := license_key
          access_level := access_level
          features := feats
          api_key := api_key
          quantum_allocation := (catalogFeatures tier).qubits
          monthly_fee := (catalogFeatures tier).price
          start_date := start_date
          expiration_date := expiration_date }
      (Except.ok lic,
       { st with license_db := dictInsert st.license_db license_key lic })

/-- `calculate_monthly_revenue` (src lines 164-169): running sum of
`license.monthly_fee` over every value of `self.license_db`, with no
filtering on `expiration_date`. -/
def calculate_monthly_revenue (st : SystemState) : ℚ :=
  st.license_db.foldl (fun revenue kv => revenue + kv.2.monthly_fee) 0

/-- What §4.3 of the spec says `revenue_snapshot` computes: the sum of
`monthly_fee` over the currently non-expired licenses only.  Stated from
the spec's words, for comparison with `calculate_monthly_revenue`. -/
def revenue_snapshot_spec (now : ℤ) (st : SystemState) : ℚ :=
  ((st.license_db.filter (fun kv => !(now > kv.2.expiration_date))).map
    (fun kv => kv.2.monthly_fee)).sum

/-- Modelled from the spec: the `RateWindow` record of §3, one per license
key — `window_start: timestamp`, `count: integer`.  The rate limiter that
owns it is absent from the source (see `check_rate_limits`). -/
structure RateWindow where
  window_start : ℤ
  count : ℕ
  deriving DecidableEq, Repr

/-- Modelled from the spec: `_check_rate_limits` is called at src line 158
but defined nowhere in the repository; §4.4 supplies the authoritative
fixed-window design.  An unbounded ceiling (`none`) always admits;
otherwise, if the current one-second window has expired, `count` resets to
0 and a new window starts at `now`; then if `count < ceiling` the request
is admitted and `count` incremented, else it is rejected with no
increment. -/
def check_rate_limits (ceiling : Option ℕ) (now : ℤ) (w : RateWindow) :
    Bool × RateWindow :=
  match ceiling with
  | none => (true, w)
  | some n =>
      let w := if w.window_start + 1 ≤ now then
                 { window_start := now, count := 0 } else w
      if w.count < n then (true, { w with count := w.count + 1 })
      else (false, w)

/-- A sequence of admission attempts against one license's window, at the
given request times, threading the window state. -/
def runRequests (ceiling : Option ℕ) (times : List ℤ) (w : RateWindow) :
    List Bool × RateWindow :=
  match times with
  | [] => ([], w)
  | t :: ts =>
      let step := check_rate_limits ceiling t w
      let rest := runRequests ceiling ts step.2
      (step.1 :: rest.1, rest.2)

/-- Registry lookup by `api_key` (the registry of src line 40 is keyed by
license key; the spec's §4.3 authenticates by the stored record's
`api_key` field). -/
def findByApiKey (db : List (String × CommercialLicense))
    (api_key : String) : Option CommercialLicense :=
  (db.find? (fun kv => kv.2.api_key == api_key)).map (fun kv => kv.2)

/-- Modelled from the spec: `_verify_api_key` is called at src line 153 but
defined nowhere in the repository; §4.3 specifies
`authenticate(api_key) -> License | AuthenticationError`: lookup by
`api_key`, `InvalidCredentialError` if absent, `ExpiredLicenseError` if
`now > expiration_date`; expired licenses are rejected, never deleted, so
the registry is returned unchanged on every path. -/
def authenticate (st : SystemState) (now : ℤ) (api_key : String) :
    Except PyError CommercialLicense × SystemState :=
  match findByApiKey st.license_db api_key with
  | none => (Except.error PyError.invalidCredentialError, st)
  | some lic =>
      if lic.expiration_date < now then
        (Except.error PyError.expiredLicenseError, st)
      else (Except.ok lic, st)

/-- The gateway's full mutable state: the registry plus the rate limiter's
per-api-key windows (the latter modelled from the spec, §3 `RateWindow`,
one per license key, owned exclusively by the rate limiter). -/
structure GatewayState where
  sys : SystemState
  windows : List (String × RateWindow)
  deriving DecidableEq, Repr

/-- The rate window currently associated with an api key; a key never seen
before gets a fresh window opening at the request time. -/
def getWindow (ws : List (String × RateWindow)) (k : String) (now : ℤ) :
    RateWindow :=
  ((ws.find? (fun kv => kv.1 == k)).map (fun kv => kv.2)).getD
    { window_start := now, count := 0 }

/-- Store back an api key's rate window (last write wins). -/
def setWindow (ws : List (String × RateWindow)) (k : String)
    (w : RateWindow) : List (String × RateWindow) :=
  (k, w) :: ws.filter (fun kv => kv.1 != k)

/-- A request forwarded to the tier-appropriate execution path (the
execution layer is out of scope for the gateway). -/
structure Executed where
  license : CommercialLicense
  required_feature : String
  deriving DecidableEq, Repr

/-- `process_api_request` (src lines 150-162).  Step 1 (line 153) verifies
the API key — `_verify_api_key` is modelled by `authenticate`, whose error
is propagated before the rate limiter is consulted, so the per-license
windows are untouched on an authentication failure.  Step 2 (line 158)
consults the rate limiter — `_check_rate_limits` is modelled by `check_rate_limits` —
and a rejection raises `ValueError("Rate limit exceeded")` (src line 159).
Step 3 (line 162) forwards to `_process_request`, which is absent from the
repository and is modelled from spec §4.5: a request whose required
feature is not in the license tier's entitled features fails with
`FeatureNotEntitledError`; otherwise the request reaches execution. -/
def process_api_request (gs : GatewayState) (now : ℤ) (api_key : String)
    (required_feature : String) : Except PyError Executed × GatewayState :=
  match (authenticate gs.sys now api_key).1 with
  | Except.error e => (Except.error e, gs)
  | Except.ok lic =>
      let ceiling := (catalogFeatures lic.tier).api_calls_per_second
      let w := getWindow gs.windows api_key now
      let step := check_rate_limits ceiling now w
      let gs' := { gs with windows := setWindow gs.windows api_key step.2 }
      if step.1 then
        if required_feature ∈ (catalogFeatures lic.tier).features then
          (Except.ok { license := lic, required_feature := required_feature },
           gs')
        else (Except.error PyError.featureNotEntitledError, gs')
      else (Except.error (PyError.valueError "Rate limit exceeded"), gs')

/-- A degenerate but well-formed stand-in for the SHA-256 byte digest, used
to evaluate the embedding at concrete inputs: every input hashes to 32 zero
bytes. -/
def zeroDigest : String → List ℕ := fun _ => List.replicate 32 0

/-- A concrete stored BASIC license whose `expiration_date` (100) is in the
past relative to the observation time 200 used below. -/
def expiredLicense : CommercialLicense :=
  { tier := LicenseTier.BASIC
    company_name := "TechCorp"
    license_key := "SAAAM-0123"
    access_level := 25 / 100
    features := ["quantum_processing", "basic_optimization",
                 "pattern_recognition"]
    api_key := "saam-api-0123"
    quantum_allocation := 128
    monthly_fee := 10000
    start_date := 0
    expiration_date := 100 }

/-- A registry holding exactly the one expired license above. -/
def expiredState : SystemState :=
  { license_db := [("SAAAM-0123", expiredLicense)], revenue := 0 }

/-- Sum of the fees of a fold, peeled off an arbitrary accumulator. -/
lemma foldl_fee_eq (l : List (String × CommercialLicense)) (a : ℚ) :
    l.foldl (fun revenue kv => revenue + kv.2.monthly_fee) a =
      a + (l.map (fun kv => kv.2.monthly_fee)).sum := by
  induction l generalizing a with
  | nil => simp
  | cons x xs ih => simp [List.foldl_cons, ih, add_assoc]

/-- C1: every call to `generate_license`, for every company name and every
tier in the catalog, raises `NameError` (the name `timedelta` at src line
123 is never imported or defined) before inserting anything, so
`license_db` and `revenue` are unchanged by any `generate_license` call. -/
theorem generate_license_always_raises_nameError
    (sha256 : String → List ℕ) (st : SystemState) (company_name : String)
    (tier : LicenseTier) (nonce : String) (now1 now2 : ℤ) :
    generate_license sha256 st company_name tier nonce now1 now2 =
      (Except.error (PyError.nameError "timedelta"), st) := rfl

/-- C8: the access level assigned at issuance is strictly increasing in
tier rank (BASIC < PROFESSIONAL < ENTERPRISE < UNLIMITED) and strictly
below 1.0 for every tier, including the top tier. -/
theorem access_level_strict_mono_and_below_one :
    (∀ t1 t2 : LicenseTier, t1.rank < t2.rank →
        calculate_access_level t1 < calculate_access_level t2) ∧
    (∀ t : LicenseTier, calculate_access_level t < 1) := by
  constructor
  · intro t1 t2
    cases t1 <;> cases t2 <;>
      norm_num [LicenseTier.rank, calculate_access_level]
  · intro t
    cases t <;> norm_num [calculate_access_level]

/-- Witness for C8 at concrete tiers: BASIC is below PROFESSIONAL and the
top tier stays below 1. -/
theorem access_level_strict_mono_and_below_one_witness :
    calculate_access_level LicenseTier.BASIC <
      calculate_access_level LicenseTier.PROFESSIONAL ∧
    calculate_access_level LicenseTier.UNLIMITED < 1 :=
  ⟨access_level_strict_mono_and_below_one.1 LicenseTier.BASIC
      LicenseTier.PROFESSIONAL (by decide),
   access_level_strict_mono_and_below_one.2 LicenseTier.UNLIMITED⟩

/-- C3 counterexample: BASIC's monthly price is strictly below
PROFESSIONAL's, yet BASIC's feature `basic_optimization` is absent from
PROFESSIONAL's feature set, so the cheaper tier's features are not a
subset of the dearer tier's. -/
theorem basic_features_not_subset_of_professional :
    (catalogFeatures LicenseTier.BASIC).price <
      (catalogFeatures LicenseTier.PROFESSIONAL).price ∧
    "basic_optimization" ∈ (catalogFeatures LicenseTier.BASIC).features ∧
    "basic_optimization" ∉
      (catalogFeatures LicenseTier.PROFESSIONAL).features := by decide

/-- C3 amended: for tiers other than BASIC, a strictly cheaper tier's
feature set is contained in the dearer tier's; BASIC's
`basic_optimization` breaks the inclusion against every dearer tier. -/
theorem tier_features_monotone_above_basic (t1 t2 : LicenseTier)
    (hp : (catalogFeatures t1).price < (catalogFeatures t2).price)
    (hb : t1 ≠ LicenseTier.BASIC) :
    ∀ f ∈ (catalogFeatures t1).features, f ∈ (catalogFeatures t2).features := by
  revert hp hb
  revert t1 t2
  decide

/-- Witness for the amended C3: PROFESSIONAL is cheaper than ENTERPRISE,
so its feature `quantum_ml` carries over to ENTERPRISE. -/
theorem tier_features_monotone_above_basic_witness :
    "quantum_ml" ∈ (catalogFeatures LicenseTier.ENTERPRISE).features :=
  tier_features_monotone_above_basic LicenseTier.PROFESSIONAL
    LicenseTier.ENTERPRISE (by decide) (by decide) "quantum_ml" (by decide)

/-- C4 counterexample: issuing with an empty company name raises
`NameError` (the `timedelta` failure every issuance hits), not
`InvalidRequestError` — `generate_license` performs no input validation
at all. -/
theorem empty_company_not_invalid_request :
    (generate_license zeroDigest initState "" LicenseTier.BASIC "nonce"
        0 0).1 = Except.error (PyError.nameError "timedelta") ∧
    (generate_license zeroDigest initState "" LicenseTier.BASIC "nonce"
        0 0).1 ≠ Except.error PyError.invalidRequestError := by
  refine ⟨rfl, ?_⟩
  intro h
  exact PyError.noConfusion (Except.error.inj h)

/-- C4 amended: issuance with an empty company name is not validated; like
every issuance it fails with `NameError` on `timedelta` and issues no
license, leaving the registry unchanged (and every member of
`LicenseTier` has a catalog entry, so the unknown-tier trigger cannot
arise). -/
theorem empty_company_issuance_raises_nameError
    (sha256 : String → List ℕ) (st : SystemState) (tier : LicenseTier)
    (nonce : String) (now1 now2 : ℤ) :
    generate_license sha256 st "" tier nonce now1 now2 =
      (Except.error (PyError.nameError "timedelta"), st) := rfl

/-- C5 counterexample: with one stored license whose `expiration_date`
(100) is already past at observation time 200, `calculate_monthly_revenue`
still returns its fee (10000), while the spec's non-expired-only sum is
0 — expired licenses are not excluded by the code. -/
theorem revenue_counts_expired_license :
    calculate_monthly_revenue expiredState = 10000 ∧
    revenue_snapshot_spec 200 expiredState = 0 ∧
    calculate_monthly_revenue expiredState ≠
      revenue_snapshot_spec 200 expiredState := by
  refine ⟨?_, ?_, ?_⟩ <;>
    norm_num [calculate_monthly_revenue, revenue_snapshot_spec,
      expiredState, expiredLicense]

/-- C5 amended: `calculate_monthly_revenue` returns the sum of
`monthly_fee` over all licenses in the registry, expired ones included —
no expiration filtering occurs. -/
theorem revenue_sums_all_licenses (st : SystemState) :
    calculate_monthly_revenue st =
      (st.license_db.map (fun kv => kv.2.monthly_fee)).sum := by
  unfold calculate_monthly_revenue
  rw [foldl_fee_eq]
  simp

/-- C10: evaluating the repository's own example call
(`generate_license("TechCorp", LicenseTier.ENTERPRISE)`, src line 247)
shows the `NameError` on `timedelta`: no license is ever produced by a
standard issuance, so no issued license carries
`expiration_date = start_date + 30 days`. -/
theorem techcorp_issuance_raises_nameError :
    generate_license zeroDigest initState "TechCorp"
        LicenseTier.ENTERPRISE "nonce" 0 0 =
      (Except.error (PyError.nameError "timedelta"), initState) := rfl

/-- Hex digits of values below 16 are lowercase hex characters. -/
lemma hexChar_lowerHex {n : ℕ} (h : n < 16) : isLowerHexDigit (hexChar n) := by
  have hall : ∀ m, m < 16 → isLowerHexDigit (hexChar m) := by decide
  exact hall n h

/-- `hexdigest` yields two characters per digest byte. -/
lemma hexdigest_length (d : List ℕ) : (hexdigest d).length = 2 * d.length := by
  induction d with
  | nil => rfl
  | cons b bs ih =>
      simp only [hexdigest, List.map_cons, List.flatten_cons,
        List.length_append, List.length_cons] at ih ⊢
      simp only [byteHex, List.length_cons, List.length_nil]
      omega

/-- Every character of the hex rendering of a byte digest is a lowercase
hex digit. -/
lemma hexdigest_lowerHex {d : List ℕ} (hd : ∀ b ∈ d, b < 256) :
    ∀ c ∈ hexdigest d, isLowerHexDigit c := by
  intro c hc
  unfold hexdigest at hc
  rw [List.mem_flatten] at hc
  obtain ⟨l, hl, hcl⟩ := hc
  rw [List.mem_map] at hl
  obtain ⟨b, hb, rfl⟩ := hl
  have hb256 := hd b hb
  simp only [byteHex, List.mem_cons, List.not_mem_nil, or_false] at hcl
  rcases hcl with h | h <;> subst h <;> exact hexChar_lowerHex (by omega)

/-- C9: for every company name, tier, and nonce the derived license key
opens with the 6 characters `"SAAAM-"` and continues with exactly 32
lowercase hex characters; for every license key the derived API key opens
with the 9 characters `"saam-api-"` and continues with exactly 48
lowercase hex characters; the API key is a function of the license key
alone, so equal license keys derive equal API keys.  The hypothesis states
that the SHA-256 digest is 32 bytes of values below 256. -/
theorem credential_key_formats (sha256 : String → List ℕ)
    (h : ∀ s, (sha256 s).length = 32 ∧ ∀ b ∈ sha256 s, b < 256) :
    (∀ (company_name : String) (tier : LicenseTier) (nonce : String),
        (generate_license_key sha256 company_name tier nonce).data.take 6 =
          "SAAAM-".data ∧
        ((generate_license_key sha256 company_name tier
            nonce).data.drop 6).length = 32 ∧
        lowerHexList ((generate_license_key sha256 company_name tier
            nonce).data.drop 6)) ∧
    (∀ license_key : String,
        (generate_api_key sha256 license_key).data.take 9 =
          "saam-api-".data ∧
        ((generate_api_key sha256 license_key).data.drop 9).length = 48 ∧
        lowerHexList ((generate_api_key sha256 license_key).data.drop 9)) ∧
    (∀ k1 k2 : String, k1 = k2 →
        generate_api_key sha256 k1 = generate_api_key sha256 k2) := by
  refine ⟨?_, ?_, ?_⟩
  · intro company_name tier nonce
    refine ⟨rfl, ?_, ?_⟩
    · show ((hexdigest (sha256 (company_name ++ "-" ++ tier.value ++ "-" ++
          nonce))).take 32).length = 32
      rw [List.length_take, hexdigest_length, (h _).1]
      omega
    · show lowerHexList ((hexdigest (sha256 (company_name ++ "-" ++
          tier.value ++ "-" ++ nonce))).take 32)
      intro c hc
      exact hexdigest_lowerHex (h _).2 c (List.take_subset _ _ hc)
  · intro license_key
    refine ⟨rfl, ?_, ?_⟩
    · show ((hexdigest (sha256 license_key)).take 48).length = 48
      rw [List.length_take, hexdigest_length, (h _).1]
      omega
    · show lowerHexList ((hexdigest (sha256 license_key)).take 48)
      intro c hc
      exact hexdigest_lowerHex (h _).2 c (List.take_subset _ _ hc)
  · intro k1 k2 hk
    rw [hk]

/-- Witness for C9 at a concrete digest function and concrete inputs. -/
theorem credential_key_formats_witness :
    (generate_license_key zeroDigest "TechCorp" LicenseTier.ENTERPRISE
        "abc").data.take 6 = "SAAAM-".data ∧
    ((generate_license_key zeroDigest "TechCorp" LicenseTier.ENTERPRISE
        "abc").data.drop 6).length = 32 ∧
    lowerHexList ((generate_license_key zeroDigest "TechCorp"
        LicenseTier.ENTERPRISE "abc").data.drop 6) :=
  (credential_key_formats zeroDigest (fun s =>
      ⟨by simp [zeroDigest], by
        intro b hb
        simp [zeroDigest] at hb
        omega⟩)).1 "TechCorp" LicenseTier.ENTERPRISE "abc"

/-- C6: presenting a stored license's api key after its expiration date
has passed fails with `ExpiredLicenseError`, which is distinct from the
`InvalidCredentialError` raised for an api key absent from the registry,
and the registry — expired record included — is returned unchanged. -/
theorem authenticate_expired_distinct_from_absent (st : SystemState)
    (now : ℤ) (key absentKey : String) (lic : CommercialLicense)
    (hfound : findByApiKey st.license_db key = some lic)
    (hexp : lic.expiration_date < now)
    (habsent : findByApiKey st.license_db absentKey = none) :
    authenticate st now key =
      (Except.error PyError.expiredLicenseError, st) ∧
    authenticate st now absentKey =
      (Except.error PyError.invalidCredentialError, st) ∧
    PyError.expiredLicenseError ≠ PyError.invalidCredentialError := by
  refine ⟨?_, ?_, by simp⟩
  · unfold authenticate
    rw [hfound]
    simp [hexp]
  · unfold authenticate
    rw [habsent]

/-- Witness for C6: the concrete registry holding one license expired at
time 100, observed at time 200, with its real api key and a missing one. -/
theorem authenticate_expired_distinct_from_absent_witness :
    authenticate expiredState 200 "saam-api-0123" =
      (Except.error PyError.expiredLicenseError, expiredState) ∧
    authenticate expiredState 200 "missing" =
      (Except.error PyError.invalidCredentialError, expiredState) :=
  ⟨(authenticate_expired_distinct_from_absent expiredState 200
      "saam-api-0123" "missing" expiredLicense (by rfl) (by decide)
      (by rfl)).1,
   (authenticate_expired_distinct_from_absent expiredState 200
      "saam-api-0123" "missing" expiredLicense (by rfl) (by decide)
      (by rfl)).2.1⟩

/-- C7: in the dispatcher, authentication precedes admission and
entitlement: a request whose api key fails authentication returns that
authentication error with the whole gateway state — in particular every
rate window — unchanged; and a request that reaches execution passed
authentication, rate-limit admission, and the entitlement check. -/
theorem dispatcher_auth_before_admission (gs : GatewayState) (now : ℤ)
    (api_key required_feature : String) :
    (∀ e, (authenticate gs.sys now api_key).1 = Except.error e →
        process_api_request gs now api_key required_feature =
          (Except.error e, gs)) ∧
    (∀ r, (process_api_request gs now api_key required_feature).1 =
          Except.ok r →
        (authenticate gs.sys now api_key).1 = Except.ok r.license ∧
        (check_rate_limits
            (catalogFeatures r.license.tier).api_calls_per_second now
            (getWindow gs.windows api_key now)).1 = true ∧
        required_feature ∈ (catalogFeatures r.license.tier).features ∧
        r.required_feature = required_feature) := by
  constructor
  · intro e he
    unfold process_api_request
    rw [he]
  · intro r hr
    unfold process_api_request at hr
    cases hauth : (authenticate gs.sys now api_key).1 with
    | error e =>
        rw [hauth] at hr
        simp at hr
    | ok lic =>
        rw [hauth] at hr
        by_cases hadm : (check_rate_limits
            (catalogFeatures lic.tier).api_calls_per_second
            now (getWindow gs.windows api_key now)).1 = true
        · by_cases hmem :
              required_feature ∈ (catalogFeatures lic.tier).features
          · simp only [hadm, hmem, if_true, if_pos] at hr
            simp at hr
            subst hr
            exact ⟨rfl, hadm, hmem, rfl⟩
          · simp only [hadm, if_true] at hr
            rw [if_neg hmem] at hr
            simp at hr
        · rw [Bool.not_eq_true] at hadm
          simp only [hadm] at hr
          simp at hr

/-- Witness for C7: an unknown api key is refused with the gateway state
(rate windows included) untouched; a valid, admitted, entitled request at
time 50 against the same registry reaches execution. -/
theorem dispatcher_auth_before_admission_witness :
    process_api_request ⟨expiredState, []⟩ 200 "missing"
        "quantum_processing" =
      (Except.error PyError.invalidCredentialError, ⟨expiredState, []⟩) ∧
    (authenticate expiredState 50 "saam-api-0123").1 =
      Except.ok (Executed.mk expiredLicense "quantum_processing").license ∧
    (check_rate_limits
        (catalogFeatures (Executed.mk expiredLicense
          "quantum_processing").license.tier).api_calls_per_second 50
        (getWindow [] "saam-api-0123" 50)).1 = true ∧
    "quantum_processing" ∈ (catalogFeatures (Executed.mk expiredLicense
      "quantum_processing").license.tier).features ∧
    (Executed.mk expiredLicense "quantum_processing").required_feature =
      "quantum_processing" :=
  ⟨(dispatcher_auth_before_admission ⟨expiredState, []⟩ 200 "missing"
      "quantum_processing").1 PyError.invalidCredentialError rfl,
   (dispatcher_auth_before_admission ⟨expiredState, []⟩ 50 "saam-api-0123"
      "quantum_processing").2
     (Executed.mk expiredLicense "quantum_processing") rfl⟩

/-- Splitting a request sequence splits the admission run. -/
lemma runRequests_append (ceiling : Option ℕ) (l1 l2 : List ℤ)
    (w : RateWindow) :
    runRequests ceiling (l1 ++ l2) w =
      ((runRequests ceiling l1 w).1 ++
         (runRequests ceiling l2 (runRequests ceiling l1 w).2).1,
       (runRequests ceiling l2 (runRequests ceiling l1 w).2).2) := by
  induction l1 generalizing w with
  | nil => simp [runRequests]
  | cons t ts ih => simp [runRequests, ih]

/-- While the window stays open and the count has room, every request is
admitted and the count advances. -/
lemma runRequests_grant_all (N : ℕ) (times : List ℤ) (w : ℤ) (c : ℕ)
    (hlen : c + times.length ≤ N) (hwin : ∀ t ∈ times, t < w + 1) :
    runRequests (some N) times ⟨w, c⟩ =
      (List.replicate times.length true, ⟨w, c + times.length⟩) := by
  induction times generalizing c with
  | nil => simp [runRequests]
  | cons t ts ih =>
      have ht : ¬(w + 1 ≤ t) := not_le.mpr (hwin t (by simp))
      have hc : c < N := by
        simp only [List.length_cons] at hlen
        omega
      have hrec := ih (c + 1)
        (by simp only [List.length_cons] at hlen ⊢; omega)
        (fun t' ht' => hwin t' (by simp [ht']))
      simp only [runRequests, check_rate_limits, ht, if_false, hc, if_pos, if_true,
        List.length_cons, hrec]
      simp [List.replicate_succ]
      omega

/-- With the count already at the ceiling and the window still open, every
request is rejected and the window is unchanged. -/
lemma runRequests_reject_all (N : ℕ) (times : List ℤ) (w : ℤ)
    (hwin : ∀ t ∈ times, t < w + 1) :
    runRequests (some N) times ⟨w, N⟩ =
      (List.replicate times.length false, ⟨w, N⟩) := by
  induction times with
  | nil => simp [runRequests]
  | cons t ts ih =>
      have ht : ¬(w + 1 ≤ t) := not_le.mpr (hwin t (by simp))
      have hrec := ih (fun t' ht' => hwin t' (by simp [ht']))
      simp [runRequests, check_rate_limits, ht, hrec, List.replicate_succ]

/-- C2: for a license whose tier has bounded ceiling `N`, issuing `N + 1`
requests within one one-second window admits exactly the first `N` and
rejects the last, leaving the count at `N`; once the window has elapsed, a
fresh batch of `N` requests is entirely admitted; a license with an
unbounded ceiling is always admitted. -/
theorem rate_limiter_window_behavior :
    (∀ (N : ℕ) (w : ℤ) (times : List ℤ), times.length = N + 1 →
        (∀ t ∈ times, t < w + 1) →
        (runRequests (some N) times ⟨w, 0⟩).1 =
          List.replicate N true ++ [false] ∧
        (runRequests (some N) times ⟨w, 0⟩).2 = ⟨w, N⟩) ∧
    (∀ (N : ℕ) (w s : ℤ) (rest : List ℤ), (s :: rest).length = N →
        w + 1 ≤ s → (∀ t ∈ rest, t < s + 1) →
        (runRequests (some N) (s :: rest) ⟨w, N⟩).1 =
          List.replicate N true) ∧
    (∀ (times : List ℤ) (w0 : RateWindow),
        (runRequests none times w0).1 =
          List.replicate times.length true) := by
  refine ⟨?_, ?_, ?_⟩
  · intro N w times hlen hwin
    have hsplit : times.take N ++ times.drop N = times :=
      List.take_append_drop N times
    have hlen1 : (times.take N).length = N := by
      rw [List.length_take]
      omega
    have hlen2 : (times.drop N).length = 1 := by
      rw [List.length_drop]
      omega
    have h1 := runRequests_grant_all N (times.take N) w 0
      (by omega) (fun t ht => hwin t (List.take_subset _ _ ht))
    have h2 := runRequests_reject_all N (times.drop N) w
      (fun t ht => hwin t (List.drop_subset _ _ ht))
    rw [← hsplit, runRequests_append, h1]
    simp only [hlen1, Nat.zero_add] at h1 ⊢
    rw [h2]
    simp [hlen1, hlen2]
  · intro N w s rest hlen hs hrest
    have hN : rest.length + 1 = N := by
      simpa using hlen
    have hstep := runRequests_grant_all N rest s 1 (by omega) hrest
    simp only [runRequests, check_rate_limits, hs, if_pos, if_true]
    have h0N : 0 < N := by omega
    simp only [h0N, if_pos, hstep]
    rw [show N = rest.length + 1 by omega]
    simp [List.replicate_succ]
  · intro times w0
    induction times with
    | nil => simp [runRequests]
    | cons t ts ih => simp [runRequests, check_rate_limits, ih, List.replicate_succ]

/-- Witness for C2: ceiling 2 — three requests at time 0 check_rate_limits two then
reject one; after the window elapses (times 5, 5) two fresh requests are
admitted; an unbounded license admits at any time. -/
theorem rate_limiter_window_behavior_witness :
    (runRequests (some 2) [0, 0, 0] ⟨0, 0⟩).1 =
      List.replicate 2 true ++ [false] ∧
    (runRequests (some 2) [5, 5] ⟨0, 2⟩).1 = List.replicate 2 true ∧
    (runRequests none [7] ⟨0, 0⟩).1 = List.replicate 1 true :=
  ⟨(rate_limiter_window_behavior.1 2 0 [0, 0, 0] (by decide)
      (by decide)).1,
   rate_limiter_window_behavior.2.1 2 0 5 [5] (by decide) (by decide)
     (by decide),
   rate_limiter_window_behavior.2.2 [7] ⟨0, 0⟩⟩
